import Mathlib

/-!
Shallow embedding of the bss-app ledger HTTP service (src/blockchain.js and
its variants src/unnamed/part_000, src/unnamed/part_001).

The service keeps three MongoDB collections: `users` (documents with an
`address` string and a `balance` number), `transactions` (sender, receiver,
amount) and `blocks` (miner, reward).  We model each collection as a list of
records, a whole database as `St`, and every route handler as a pure function
from a state and the request-body fields to a response together with the next
state.  Request-body fields are `Option`s (a JSON body may omit a field);
JavaScript truthiness checks such as `!sender` are modelled exactly: a field
is falsy when it is absent, the empty string, or the number 0.  Amounts and
balances are integers (the spec calls balances "non-negative integer or
fixed-point amount"); timestamps (`new Date()`) and the `createdAt` field are
omitted as no claim mentions them.  MongoDB's `findOne {address}` returns the
first matching document and `updateOne` with `$inc` increments the first
matching document, which `findUser` and `incBalance` reproduce.
-/

namespace BssApp

/-- A document of the `users` collection: src/blockchain.js lines 54-58. -/
structure Account where
  address : String
  balance : Int
  deriving Repr, DecidableEq

/-- A document of the `transactions` collection: src/blockchain.js lines 105-110. -/
structure Txn where
  sender : String
  receiver : String
  amount : Int
  deriving Repr, DecidableEq

/-- A document of the `blocks` collection: src/blockchain.js lines 138-142. -/
structure Block where
  miner : String
  reward : Int
  deriving Repr, DecidableEq

/-- The whole database `bss_app`: the three collections. -/
structure St where
  users : List Account
  transactions : List Txn
  blocks : List Block
  deriving Repr, DecidableEq

/-- An HTTP response of one of the handlers, with the payloads the claims
talk about and the source's message strings. -/
inductive Resp where
  | created (u : Account)
  | okBalance (b : Int)
  | okTxn (t : Txn)
  | okBlock (b : Block)
  | okTxns (ts : List Txn)
  | badRequest (msg : String)
  | notFound (msg : String)
  deriving Repr, DecidableEq

/-- `db.collection('users').findOne({ address })`: first document whose
address field equals the query value. -/
def findUser (us : List Account) (addr : String) : Option Account :=
  us.find? (fun u => u.address == addr)

/-- `db.collection('users').updateOne({ address }, { $inc: { balance: d } })`:
increment the balance of the first matching document; no-op when none matches. -/
def incBalance : List Account → String → Int → List Account
  | [], _, _ => []
  | u :: us, addr, d =>
      if u.address == addr then { u with balance := u.balance + d } :: us
      else u :: incBalance us addr d

/-- POST /users/register, src/blockchain.js lines 39-67.  The guard
`if (!address || !initialBalance)` rejects an absent field, an empty address
and the number 0; the created balance is `initialBalance || 0`. -/
def register (st : St) (address : Option String) (initialBalance : Option Int) :
    Resp × St :=
  match address, initialBalance with
  | some a, some b =>
      if a == "" || b == 0 then
        (Resp.badRequest "Address and initial balance are required", st)
      else
        match findUser st.users a with
        | some _ => (Resp.badRequest "User already exists", st)
        | none =>
            let newUser : Account := { address := a, balance := if b == 0 then 0 else b }
            (Resp.created newUser, { st with users := st.users ++ [newUser] })
  | _, _ => (Resp.badRequest "Address and initial balance are required", st)

/-- POST /users/register, src/unnamed/part_000 lines 42-74.  Validation by
express-validator: `address` must be a non-empty string, `initialBalance` is
optional and numeric; the created balance is `initialBalance || 0`. -/
def register_v (st : St) (address : Option String) (initialBalance : Option Int) :
    Resp × St :=
  match address with
  | some a =>
      if a == "" then (Resp.badRequest "validation errors", st)
      else
        match findUser st.users a with
        | some _ => (Resp.badRequest "User already exists", st)
        | none =>
            let b : Int :=
              match initialBalance with
              | some v => if v == 0 then 0 else v
              | none => 0
            let newUser : Account := { address := a, balance := b }
            (Resp.created newUser, { st with users := st.users ++ [newUser] })
  | none => (Resp.badRequest "validation errors", st)

/-- GET /balance/:address, src/blockchain.js lines 70-80. -/
def getBalance (st : St) (address : String) : Resp :=
  match findUser st.users address with
  | none => Resp.notFound "User not found"
  | some u => Resp.okBalance u.balance

/-- POST /transactions/send, src/blockchain.js lines 83-119 (identical logic
in src/unnamed/part_001 lines 51-87).  The guard `!sender || !receiver ||
!amount` rejects absent fields, empty strings and amount 0; then both
accounts are looked up, the sender's balance compared with the amount, the
two `$inc` updates applied, and the transaction document inserted. -/
def sendTransaction (st : St) (sender receiver : Option String) (amount : Option Int) :
    Resp × St :=
  match sender, receiver, amount with
  | some s, some r, some a =>
      if s == "" || r == "" || a == 0 then (Resp.badRequest "Invalid request body", st)
      else
        match findUser st.users s, findUser st.users r with
        | some su, some _ =>
            if su.balance < a then (Resp.badRequest "Insufficient balance", st)
            else
              let txn : Txn := { sender := s, receiver := r, amount := a }
              (Resp.okTxn txn,
               { st with
                 users := incBalance (incBalance st.users s (-a)) r a,
                 transactions := st.transactions ++ [txn] })
        | none, _ => (Resp.notFound "Sender or Receiver does not exist", st)
        | some _, none => (Resp.notFound "Sender or Receiver does not exist", st)
  | _, _, _ => (Resp.badRequest "Invalid request body", st)

/-- POST /transactions/send, src/unnamed/part_000 lines 90-131: the same
handler body, but validated by express-validator (`sender`, `receiver`
non-empty strings, `amount` numeric), so the number 0 passes validation. -/
def sendTransaction_v (st : St) (sender receiver : Option String) (amount : Option Int) :
    Resp × St :=
  match sender, receiver, amount with
  | some s, some r, some a =>
      if s == "" || r == "" then (Resp.badRequest "validation errors", st)
      else
        match findUser st.users s, findUser st.users r with
        | some su, some _ =>
            if su.balance < a then (Resp.badRequest "Insufficient balance", st)
            else
              let txn : Txn := { sender := s, receiver := r, amount := a }
              (Resp.okTxn txn,
               { st with
                 users := incBalance (incBalance st.users s (-a)) r a,
                 transactions := st.transactions ++ [txn] })
        | none, _ => (Resp.notFound "Sender or Receiver does not exist", st)
        | some _, none => (Resp.notFound "Sender or Receiver does not exist", st)
  | _, _, _ => (Resp.badRequest "validation errors", st)

/-- POST /mine, src/blockchain.js lines 122-151: reject a falsy miner
address, look the miner up, `$inc` its balance by the reward constant 10,
insert the block document. -/
def mine (st : St) (minerAddress : Option String) : Resp × St :=
  match minerAddress with
  | some m =>
      if m == "" then (Resp.badRequest "Miner address is required", st)
      else
        match findUser st.users m with
        | none => (Resp.notFound "Miner does not exist", st)
        | some _ =>
            let reward : Int := 10
            let block : Block := { miner := m, reward := reward }
            (Resp.okBlock block,
             { st with
               users := incBalance st.users m reward,
               blocks := st.blocks ++ [block] })
  | none => (Resp.badRequest "Miner address is required", st)

/-- GET /transactions/:address, src/blockchain.js lines 154-175: all
transaction documents where the address is sender or receiver; an empty
result is mapped to a 404 error.  (src/unnamed/part_000 lines 169-187 is the
same handler at /transactions/user/:address.) -/
def getTransactions (st : St) (address : String) : Resp :=
  let txns := st.transactions.filter (fun t => t.sender == address || t.receiver == address)
  if txns.length == 0 then Resp.notFound "No transactions found for this user"
  else Resp.okTxns txns

/-- Sum of all account balances of a collection. -/
def usersTotal (us : List Account) : Int :=
  (us.map (fun u => u.balance)).sum

/-- Sum of all account balances of the database. -/
def totalBalance (st : St) : Int :=
  usersTotal st.users

/-- Run a sequence of POST /transactions/send requests, each against the
state the previous one left behind. -/
def execSends (st : St) : List (Option String × Option String × Option Int) → St
  | [] => st
  | (s, r, a) :: rest => execSends (sendTransaction st s r a).2 rest

/-! ### Helper lemmas about the collection primitives -/

@[simp]
lemma usersTotal_nil : usersTotal [] = 0 := rfl

@[simp]
lemma usersTotal_cons (u : Account) (us : List Account) :
    usersTotal (u :: us) = u.balance + usersTotal us := by
  simp [usersTotal]

/-- `$inc` on a collection changes the total balance by the delta exactly
when some document matches the address. -/
lemma usersTotal_incBalance (us : List Account) (addr : String) (d : Int) :
    usersTotal (incBalance us addr d) =
      usersTotal us + (if (findUser us addr).isSome then d else 0) := by
  induction us with
  | nil => simp [incBalance, findUser]
  | cons u us ih =>
      by_cases h : u.address = addr
      · simp [incBalance, findUser, List.find?_cons, h]
        ring
      · simp only [incBalance, beq_iff_eq, h, if_false, usersTotal_cons, ih]
        have hfind : findUser (u :: us) addr = findUser us addr := by
          simp [findUser, List.find?_cons, h]
        rw [hfind]
        ring

/-- `$inc` never adds or removes documents: whether an address is present is
unchanged. -/
lemma findUser_incBalance_isSome (us : List Account) (a b : String) (d : Int) :
    (findUser (incBalance us a d) b).isSome = (findUser us b).isSome := by
  induction us with
  | nil => simp [incBalance]
  | cons u us ih =>
      by_cases h : u.address = a
      · subst h
        by_cases h2 : u.address = b
        · simp [incBalance, findUser, List.find?_cons, h2]
        · simp [incBalance, findUser, List.find?_cons, h2]
      · by_cases h2 : u.address = b
        · have hpos : (fun x : Account => x.address == b) u = true := by simp [h2]
          have l1 : List.find? (fun x : Account => x.address == b) (u :: incBalance us a d)
              = some u := List.find?_cons_of_pos _ hpos
          have l2 : List.find? (fun x : Account => x.address == b) (u :: us)
              = some u := List.find?_cons_of_pos _ hpos
          rw [show incBalance (u :: us) a d = u :: incBalance us a d by
                simp [incBalance, h]]
          unfold findUser
          rw [l1, l2]
        · rw [show incBalance (u :: us) a d = u :: incBalance us a d by
                simp [incBalance, h]]
          rw [show findUser (u :: incBalance us a d) b = findUser (incBalance us a d) b by
                simp [findUser, List.find?_cons, h2]]
          rw [show findUser (u :: us) b = findUser us b by
                simp [findUser, List.find?_cons, h2]]
          exact ih

/-- Debiting and then crediting the same address by the same amount restores
the collection. -/
lemma incBalance_cancel (us : List Account) (a : String) (d : Int) :
    incBalance (incBalance us a (-d)) a d = us := by
  induction us with
  | nil => rfl
  | cons u us ih =>
      by_cases h : u.address = a
      · subst h
        simp [incBalance]
      · simp [incBalance, h, ih]

/-- One POST /transactions/send request, successful or not, conserves the
total balance: on success the `-amount` and `+amount` updates cancel (both
accounts were found), and every failure path returns the state untouched. -/
lemma totalBalance_sendTransaction (st : St) (s r : Option String) (a : Option Int) :
    totalBalance (sendTransaction st s r a).2 = totalBalance st := by
  cases s with
  | none => rfl
  | some sv =>
    cases r with
    | none => rfl
    | some rv =>
      cases a with
      | none => rfl
      | some av =>
        simp only [sendTransaction]
        split
        · rfl
        · split
          · rename_i su ru hsu hru
            split
            · rfl
            · simp only [totalBalance]
              rw [usersTotal_incBalance, usersTotal_incBalance,
                  findUser_incBalance_isSome, hsu, hru]
              simp
          · rfl
          · rfl

/-- A POST /transactions/send request either leaves the database untouched
or answers with the success response `okTxn`. -/
lemma sendTransaction_result (st : St) (s r : Option String) (a : Option Int) :
    (sendTransaction st s r a).2 = st ∨
    ∃ t, (sendTransaction st s r a).1 = Resp.okTxn t := by
  cases s with
  | none => exact Or.inl rfl
  | some sv =>
    cases r with
    | none => exact Or.inl rfl
    | some rv =>
      cases a with
      | none => exact Or.inl rfl
      | some av =>
        simp only [sendTransaction]
        split
        · exact Or.inl rfl
        · split
          · split
            · exact Or.inl rfl
            · exact Or.inr ⟨_, rfl⟩
          · exact Or.inl rfl
          · exact Or.inl rfl

/-- Whether a response is the success response of POST /transactions/send. -/
def isOkTxn : Resp → Bool
  | Resp.okTxn _ => true
  | _ => false

/-- A successful POST /mine request increases the total balance by exactly
the reward constant 10. -/
lemma totalBalance_mine (st : St) (m : Option String) (b : Block) (st' : St)
    (h : mine st m = (Resp.okBlock b, st')) :
    totalBalance st' = totalBalance st + 10 := by
  cases m with
  | none =>
      injection h with h1 h2
      exact Resp.noConfusion h1
  | some mv =>
      simp only [mine] at h
      split at h
      · injection h with h1 h2
        exact Resp.noConfusion h1
      · split at h
        · injection h with h1 h2
          exact Resp.noConfusion h1
        · rename_i u heq
          injection h with h1 h2
          rw [← h2]
          simp only [totalBalance]
          rw [usersTotal_incBalance, heq]
          simp

/-! ### The claims -/

/-- C1: every sequence of POST /transactions/send requests (successful or
not — failures leave the state untouched) conserves the sum of all account
balances, and every successful POST /mine request increases that sum by
exactly the reward constant 10. -/
theorem C1_total_balance_conservation :
    (∀ (st : St) (reqs : List (Option String × Option String × Option Int)),
        totalBalance (execSends st reqs) = totalBalance st) ∧
    (∀ (st : St) (m : Option String) (b : Block) (st' : St),
        mine st m = (Resp.okBlock b, st') → totalBalance st' = totalBalance st + 10) := by
  constructor
  · intro st reqs
    induction reqs generalizing st with
    | nil => rfl
    | cons req rest ih =>
        obtain ⟨s, r, a⟩ := req
        calc totalBalance (execSends (sendTransaction st s r a).2 rest)
            = totalBalance (sendTransaction st s r a).2 := ih _
          _ = totalBalance st := totalBalance_sendTransaction st s r a
  · exact fun st m b st' h => totalBalance_mine st m b st' h

/-- Witness for C1 at a concrete database: a transfer of 3 from "A" to "B"
conserves the total 8, and mining for "A" raises the total 7 to 17. -/
theorem C1_total_balance_conservation_witness :
    totalBalance (execSends ⟨[⟨"A", 7⟩, ⟨"B", 1⟩], [], []⟩
        [(some "A", some "B", some 3)]) = totalBalance ⟨[⟨"A", 7⟩, ⟨"B", 1⟩], [], []⟩ ∧
    totalBalance (mine ⟨[⟨"A", 7⟩], [], []⟩ (some "A")).2 =
      totalBalance ⟨[⟨"A", 7⟩], [], []⟩ + 10 :=
  ⟨C1_total_balance_conservation.1 ⟨[⟨"A", 7⟩, ⟨"B", 1⟩], [], []⟩
      [(some "A", some "B", some 3)],
   C1_total_balance_conservation.2 ⟨[⟨"A", 7⟩], [], []⟩ (some "A") ⟨"A", 10⟩
      (mine ⟨[⟨"A", 7⟩], [], []⟩ (some "A")).2 (by rfl)⟩

/-- C2: a POST /transactions/send request that does not answer with the
success response (any error: missing or falsy field, unknown sender or
receiver, insufficient balance) leaves the database unchanged — no account
balance changes and no transaction document is inserted. -/
theorem C2_failed_transfer_state_unchanged (st : St) (s r : Option String)
    (a : Option Int) (h : isOkTxn (sendTransaction st s r a).1 = false) :
    (sendTransaction st s r a).2 = st := by
  rcases sendTransaction_result st s r a with h2 | ⟨t, ht⟩
  · exact h2
  · rw [ht] at h
    exact Bool.noConfusion h

/-- Witness for C2 at a concrete database: a transfer of 10 from "A"
(balance 5) to "B" fails the balance check and leaves both accounts and the
transaction log untouched. -/
theorem C2_failed_transfer_state_unchanged_witness :
    isOkTxn (sendTransaction ⟨[⟨"A", 5⟩, ⟨"B", 2⟩], [], []⟩
        (some "A") (some "B") (some 10)).1 = false ∧
    (sendTransaction ⟨[⟨"A", 5⟩, ⟨"B", 2⟩], [], []⟩
        (some "A") (some "B") (some 10)).2 = ⟨[⟨"A", 5⟩, ⟨"B", 2⟩], [], []⟩ :=
  ⟨by rfl,
   C2_failed_transfer_state_unchanged ⟨[⟨"A", 5⟩, ⟨"B", 2⟩], [], []⟩
     (some "A") (some "B") (some 10) (by rfl)⟩

/-! ### Interleaving model for concurrent POST /transactions/send handlers

The handler body awaits each database operation separately (two `findOne`
reads, the balance check on the values read, two `updateOne` `$inc` writes,
one `insertOne`), with no transaction or lock around them, so the database
steps of two in-flight requests may interleave.  A `Thread` is one in-flight
request; `stepThread` performs its next database step.  The model is
conservative: it collapses the two reads plus the pure balance check into one
atomic step and the credit plus the record insert into one atomic step, so it
allows strictly fewer interleavings than the real handler does. -/

/-- How far an in-flight POST /transactions/send handler has progressed. -/
inductive TPhase where
  | start
  | checked
  | debited
  | done
  | failed
  deriving Repr, DecidableEq

/-- One in-flight POST /transactions/send request (body fields already
validated as non-falsy). -/
structure Thread where
  sender : String
  receiver : String
  amount : Int
  phase : TPhase
  deriving Repr, DecidableEq

/-- Perform the next database step of one in-flight handler:
`start` → the two `findOne` reads and the balance check (lines 91-100);
`checked` → the `$inc` debit of the sender (line 102);
`debited` → the `$inc` credit of the receiver and the `insertOne` of the
transaction document (lines 103-112). -/
def stepThread (st : St) (t : Thread) : Thread × St :=
  match t.phase with
  | TPhase.start =>
      match findUser st.users t.sender, findUser st.users t.receiver with
      | some su, some _ =>
          if su.balance < t.amount then ({ t with phase := TPhase.failed }, st)
          else ({ t with phase := TPhase.checked }, st)
      | none, _ => ({ t with phase := TPhase.failed }, st)
      | some _, none => ({ t with phase := TPhase.failed }, st)
  | TPhase.checked =>
      ({ t with phase := TPhase.debited },
       { st with users := incBalance st.users t.sender (-t.amount) })
  | TPhase.debited =>
      ({ t with phase := TPhase.done },
       { st with
         users := incBalance st.users t.receiver t.amount,
         transactions := st.transactions ++
           [{ sender := t.sender, receiver := t.receiver, amount := t.amount }] })
  | TPhase.done => (t, st)
  | TPhase.failed => (t, st)

/-- Run a pool of in-flight handlers under a schedule: each schedule entry
names the thread whose next database step runs. -/
def runSched (st : St) (ts : List Thread) : List Nat → List Thread × St
  | [] => (ts, st)
  | i :: rest =>
      match ts[i]? with
      | none => runSched st ts rest
      | some t =>
          let p := stepThread st t
          runSched p.2 (ts.set i p.1) rest

/-- C3 fails on the code: the handler has no transaction, lock or
compare-and-swap, so two concurrent transfers of 100 from "A" (balance 100)
to "B" may both pass the balance check against the same stale balance.
Under the schedule check-check-debit-debit-credit-credit both requests
complete, "A" ends at -100 and two transaction documents are inserted,
whereas under either serial order (modelled by `execSends`) the second
transfer is rejected with insufficient balance, "A" ends at 0 and one
document is inserted.  The interleaved outcome matches no serial one: a
lost-update double-spend. -/
theorem C3_interleaved_double_spend :
    (runSched ⟨[⟨"A", 100⟩, ⟨"B", 0⟩], [], []⟩
        [⟨"A", "B", 100, TPhase.start⟩, ⟨"A", "B", 100, TPhase.start⟩]
        [0, 1, 0, 1, 0, 1]).1
      = [⟨"A", "B", 100, TPhase.done⟩, ⟨"A", "B", 100, TPhase.done⟩] ∧
    (runSched ⟨[⟨"A", 100⟩, ⟨"B", 0⟩], [], []⟩
        [⟨"A", "B", 100, TPhase.start⟩, ⟨"A", "B", 100, TPhase.start⟩]
        [0, 1, 0, 1, 0, 1]).2.users
      = [⟨"A", -100⟩, ⟨"B", 200⟩] ∧
    (runSched ⟨[⟨"A", 100⟩, ⟨"B", 0⟩], [], []⟩
        [⟨"A", "B", 100, TPhase.start⟩, ⟨"A", "B", 100, TPhase.start⟩]
        [0, 1, 0, 1, 0, 1]).2.transactions.length = 2 ∧
    (execSends ⟨[⟨"A", 100⟩, ⟨"B", 0⟩], [], []⟩
        [(some "A", some "B", some 100), (some "A", some "B", some 100)]).users
      = [⟨"A", 0⟩, ⟨"B", 100⟩] ∧
    (execSends ⟨[⟨"A", 100⟩, ⟨"B", 0⟩], [], []⟩
        [(some "A", some "B", some 100), (some "A", some "B", some 100)]).transactions.length
      = 1 := by
  refine ⟨?_, ?_, ?_, ?_, ?_⟩ <;> rfl

/-- C4 fails on the code: no handler checks the sign of a number.
Registration (both the blockchain.js guard and the part_000 express-validator
chain, which only checks `isNumeric`) accepts a negative `initialBalance` and
creates an account with balance -5; and a transfer of the negative amount -4
passes the falsy-guard and the balance check (3 < -4 is false), is reported
as successful, and drives the receiver's balance to -2. -/
theorem C4_negative_balance_reachable :
    register ⟨[], [], []⟩ (some "mallory") (some (-5)) =
      (Resp.created ⟨"mallory", -5⟩, ⟨[⟨"mallory", -5⟩], [], []⟩) ∧
    register_v ⟨[], [], []⟩ (some "mallory") (some (-5)) =
      (Resp.created ⟨"mallory", -5⟩, ⟨[⟨"mallory", -5⟩], [], []⟩) ∧
    sendTransaction ⟨[⟨"A", 3⟩, ⟨"B", 2⟩], [], []⟩ (some "A") (some "B") (some (-4)) =
      (Resp.okTxn ⟨"A", "B", -4⟩,
       ⟨[⟨"A", 7⟩, ⟨"B", -2⟩], [⟨"A", "B", -4⟩], []⟩) := by
  refine ⟨?_, ?_, ?_⟩ <;> rfl

/-- C5 fails on the code: only the JavaScript falsiness of the amount is
checked, so the amount 0 is rejected (with the generic "Invalid request
body" message), but a negative amount is not: a transfer of -1 between two
existing zero-balance accounts passes the balance check (0 < -1 is false),
mutates both balances and inserts a transaction document.  In the part_000
variant the express-validator chain (`isNumeric().notEmpty()`) also lets the
amount 0 through to a successful transfer. -/
theorem C5_nonpositive_amount_not_rejected :
    sendTransaction ⟨[⟨"A", 0⟩, ⟨"B", 0⟩], [], []⟩ (some "A") (some "B") (some (-1)) =
      (Resp.okTxn ⟨"A", "B", -1⟩,
       ⟨[⟨"A", 1⟩, ⟨"B", -1⟩], [⟨"A", "B", -1⟩], []⟩) ∧
    sendTransaction ⟨[⟨"A", 0⟩, ⟨"B", 0⟩], [], []⟩ (some "A") (some "B") (some 0) =
      (Resp.badRequest "Invalid request body", ⟨[⟨"A", 0⟩, ⟨"B", 0⟩], [], []⟩) ∧
    sendTransaction_v ⟨[⟨"A", 0⟩, ⟨"B", 0⟩], [], []⟩ (some "A") (some "B") (some 0) =
      (Resp.okTxn ⟨"A", "B", 0⟩,
       ⟨[⟨"A", 0⟩, ⟨"B", 0⟩], [⟨"A", "B", 0⟩], []⟩) := by
  refine ⟨?_, ?_, ?_⟩ <;> rfl

/-- C6: a transfer of 40 from account A (balance 100) to account B
(balance 0) succeeds, leaves A at 60 and B at 40, and appends exactly one
transaction document with those fields. -/
theorem C6_transfer_100_0_40 (A B : String) (txs : List Txn) (bks : List Block)
    (hA : A ≠ "") (hB : B ≠ "") (hAB : A ≠ B) :
    sendTransaction ⟨[⟨A, 100⟩, ⟨B, 0⟩], txs, bks⟩ (some A) (some B) (some 40) =
      (Resp.okTxn ⟨A, B, 40⟩, ⟨[⟨A, 60⟩, ⟨B, 40⟩], txs ++ [⟨A, B, 40⟩], bks⟩) := by
  simp [sendTransaction, findUser, List.find?_cons, incBalance, hA, hB, hAB]

/-- Witness for C6 at concrete addresses "alice" and "bob". -/
theorem C6_transfer_100_0_40_witness :
    sendTransaction ⟨[⟨"alice", 100⟩, ⟨"bob", 0⟩], [], []⟩
        (some "alice") (some "bob") (some 40) =
      (Resp.okTxn ⟨"alice", "bob", 40⟩,
       ⟨[⟨"alice", 60⟩, ⟨"bob", 40⟩], [⟨"alice", "bob", 40⟩], []⟩) :=
  C6_transfer_100_0_40 "alice" "bob" [] []
    (by decide) (by decide) (by decide)

/-- C7: mining for an existing miner M (balance 5) succeeds, leaves M at 15
(the reward constant is 10), appends exactly one block document with miner M
and reward 10, and does not touch any other account (here O with arbitrary
balance). -/
theorem C7_mine_reward_10 (M O : String) (ob : Int) (txs : List Txn) (bks : List Block)
    (hM : M ≠ "") (hMO : M ≠ O) :
    mine ⟨[⟨M, 5⟩, ⟨O, ob⟩], txs, bks⟩ (some M) =
      (Resp.okBlock ⟨M, 10⟩, ⟨[⟨M, 15⟩, ⟨O, ob⟩], txs, bks ++ [⟨M, 10⟩]⟩) := by
  simp [mine, findUser, List.find?_cons, incBalance, hM, hMO]

/-- Witness for C7 at concrete addresses "miner" and "other". -/
theorem C7_mine_reward_10_witness :
    mine ⟨[⟨"miner", 5⟩, ⟨"other", 3⟩], [], []⟩ (some "miner") =
      (Resp.okBlock ⟨"miner", 10⟩,
       ⟨[⟨"miner", 15⟩, ⟨"other", 3⟩], [], [⟨"miner", 10⟩]⟩) :=
  C7_mine_reward_10 "miner" "other" 3 [] [] (by decide) (by decide)

/-- C8 as stated fails on the code: with no transaction involving "X" the
query handler answers the 404 error, not an empty success list. -/
theorem C8_counterexample_empty_query_is_404 :
    getTransactions ⟨[⟨"X", 0⟩, ⟨"Y", 0⟩], [], []⟩ "X" =
      Resp.notFound "No transactions found for this user" ∧
    getTransactions ⟨[⟨"X", 0⟩, ⟨"Y", 0⟩], [], []⟩ "X" ≠ Resp.okTxns [] := by
  exact ⟨rfl, by decide⟩

/-- C8 amended: when no transfer involving X exists the query answers the
404 error (not an empty success list); after one successful transfer X→Y
from such a state, the query for X returns exactly that one transfer. -/
theorem C8_query_by_participant (st : St) (X Y : String) (a : Int) (ux : Account)
    (hX : X ≠ "") (hY : Y ≠ "") (ha : a ≠ 0)
    (hfx : findUser st.users X = some ux)
    (hfy : (findUser st.users Y).isSome = true)
    (hbal : ¬ ux.balance < a)
    (hempty : st.transactions.filter (fun t => t.sender == X || t.receiver == X) = []) :
    getTransactions st X = Resp.notFound "No transactions found for this user" ∧
    getTransactions (sendTransaction st (some X) (some Y) (some a)).2 X =
      Resp.okTxns [⟨X, Y, a⟩] := by
  constructor
  · simp [getTransactions, hempty]
  · obtain ⟨uy, hfy2⟩ := Option.isSome_iff_exists.mp hfy
    have hguard : (X == "" || Y == "" || a == 0) = false := by simp [hX, hY, ha]
    simp only [sendTransaction, hguard, Bool.false_eq_true, if_false, hfx, hfy2]
    rw [if_neg hbal]
    simp [getTransactions, List.filter_append, hempty]

/-- Witness for C8 (amended) at a concrete database: accounts "X" (balance
10) and "Y", empty transaction log, transfer of 5 from "X" to "Y". -/
theorem C8_query_by_participant_witness :
    getTransactions ⟨[⟨"X", 10⟩, ⟨"Y", 0⟩], [], []⟩ "X" =
      Resp.notFound "No transactions found for this user" ∧
    getTransactions (sendTransaction ⟨[⟨"X", 10⟩, ⟨"Y", 0⟩], [], []⟩
        (some "X") (some "Y") (some 5)).2 "X" = Resp.okTxns [⟨"X", "Y", 5⟩] :=
  C8_query_by_participant ⟨[⟨"X", 10⟩, ⟨"Y", 0⟩], [], []⟩ "X" "Y" 5 ⟨"X", 10⟩
    (by decide) (by decide) (by decide) rfl rfl (by decide) rfl

/-- C9 fails on src/blockchain.js: its guard `!address || !initialBalance`
treats an omitted (or zero) initialBalance as missing and answers 400, even
though the code's own comment on the next line says "Default balance is 0 if
not provided"; the part_000 express-validator variant, where initialBalance
is declared `.optional()`, implements the documented behaviour and creates
the account with balance 0. -/
theorem C9_register_omitted_initial_balance :
    register ⟨[], [], []⟩ (some "alice") none =
      (Resp.badRequest "Address and initial balance are required", ⟨[], [], []⟩) ∧
    register ⟨[], [], []⟩ (some "alice") (some 0) =
      (Resp.badRequest "Address and initial balance are required", ⟨[], [], []⟩) ∧
    register_v ⟨[], [], []⟩ (some "alice") none =
      (Resp.created ⟨"alice", 0⟩, ⟨[⟨"alice", 0⟩], [], []⟩) := by
  refine ⟨?_, ?_, ?_⟩ <;> rfl

/-- C10: a self-transfer (sender = receiver = A) of a positive amount within
A's balance succeeds, leaves every account balance as it was (the `$inc`
debit and credit hit the same document and cancel), and appends exactly one
transaction document with sender A, receiver A and that amount. -/
theorem C10_self_transfer_no_op (st : St) (A : String) (a : Int) (u : Account)
    (hA : A ≠ "") (hu : findUser st.users A = some u)
    (hpos : 0 < a) (hle : a ≤ u.balance) :
    sendTransaction st (some A) (some A) (some a) =
      (Resp.okTxn ⟨A, A, a⟩,
       ⟨st.users, st.transactions ++ [⟨A, A, a⟩], st.blocks⟩) := by
  have hguard : (A == "" || A == "" || a == 0) = false := by simp [hA, hpos.ne']
  have hbal : ¬ u.balance < a := not_lt.mpr hle
  simp only [sendTransaction, hguard, Bool.false_eq_true, if_false, hu]
  rw [if_neg hbal, incBalance_cancel]

/-- Witness for C10 at a concrete database: "A" (balance 9) transfers 4 to
itself; the balance stays 9 and one transaction document is appended. -/
theorem C10_self_transfer_no_op_witness :
    sendTransaction ⟨[⟨"A", 9⟩], [], []⟩ (some "A") (some "A") (some 4) =
      (Resp.okTxn ⟨"A", "A", 4⟩, ⟨[⟨"A", 9⟩], [⟨"A", "A", 4⟩], []⟩) :=
  C10_self_transfer_no_op ⟨[⟨"A", 9⟩], [], []⟩ "A" 4 ⟨"A", 9⟩
    (by decide) rfl (by decide) (by decide)

end BssApp
